import Mathlib

/-!
# powerivq/readable: the request handler and the logger of `main.go`

A shallow embedding of `src/main.go`.

* Pure code (`formatDigits`, the timestamp of `logMessage`) is embedded as pure
  functions on strings.
* Effectful code (`logMessage`, `respondError`, `handleReadability`, `handleOk`)
  is embedded as state passing over `State`: the `http.ResponseWriter` of the
  request together with the chronological trace of every effect the handler
  performs (lines printed to standard output, calls into the libraries, writes
  to the response).
* The libraries the handler calls (`time.Now`, `url.Parse`, `http.NewRequest`,
  `http.Client.Do`, `readability.FromReader`, `Article.RenderHTML`) are not part
  of the repository; they are the fields of `Env`, and every theorem quantifies
  over them.
* A Go `error` is represented by its message, the text `%v` prints.
* `json.NewEncoder(w).Encode(m)` is embedded as one write of the JSON object
  `m`; the byte-level encoding of the object is the library's.
-/

namespace Readable

/-! ## Data model -/

/-- A `map[string][]string`, the representation shared by `url.Values` and
`http.Header`. -/
abbrev MultiMap := List (String × List String)

/-- The first value stored under `key`, or the empty string: `url.Values.Get`
and `http.Header.Get` (for an already canonical key). -/
def MultiMap.get (m : MultiMap) (key : String) : String :=
  match m.lookup key with
  | some (v :: _) => v
  | _ => ""

/-- Replace whatever is stored under `key` by the single value `value`:
`http.Header.Set` (for an already canonical key). -/
def MultiMap.set (m : MultiMap) (key value : String) : MultiMap :=
  (key, [value]) :: m.filter (fun p => p.1 != key)

/-- The value of `time.Now().UTC()`, through the accessors `logMessage` reads. -/
structure Time where
  year : Int
  month : Int
  day : Int
  hour : Int
  minute : Int
  second : Int
  nanosecond : Int
deriving DecidableEq, Repr

/-- The incoming request, as far as the handler looks at it: `r.URL.String()`
and `r.URL.Query()`. -/
structure Request where
  urlString : String
  query : MultiMap
deriving DecidableEq, Repr

/-- A parsed `*url.URL`; its structure is the library's. -/
structure URL where
  text : String
deriving DecidableEq, Repr

/-- The outgoing `*http.Request`. -/
structure ClientRequest where
  method : String
  url : String
  header : MultiMap
deriving DecidableEq, Repr

/-- The upstream `*http.Response`: status code, headers and body stream. -/
structure ClientResponse where
  statusCode : Nat
  header : MultiMap
  body : String
deriving DecidableEq, Repr

/-- A `readability.Article`: the title `Title()` returns and the content tree,
which only the renderer looks into. -/
structure Article where
  title : String
  node : String
deriving DecidableEq, Repr

/-- One write to the response body: raw bytes, or a JSON object written by
`json.NewEncoder(w).Encode` (a Go `map[string]string` literal, as the list of
its entries). -/
inductive Chunk where
  | bytes (s : String)
  | json (obj : List (String × String))
deriving DecidableEq, Repr

/-- Every effect the handler can perform, in the order performed. -/
inductive Event where
  | stdout (line : String)
  | urlParse (rawURL : String)
  | newRequest (method url : String)
  | clientDo (timeoutSeconds : Nat) (req : ClientRequest)
  | fromReader (body : String) (pageURL : URL)
  | renderHTML (article : Article)
  | bodyClose
  | headerSet (key value : String)
  | writeHeader (code : Nat)
  | write (c : Chunk)
deriving DecidableEq, Repr

/-- The `http.ResponseWriter` of one request: the header map the handler edits,
the status line once it has been written (with the headers frozen at that
moment), and the body written so far. -/
structure ResponseWriter where
  header : MultiMap := []
  status : Option Nat := none
  sentHeader : MultiMap := []
  body : List Chunk := []
deriving DecidableEq, Repr

/-- The state threaded through the handler. -/
structure State where
  w : ResponseWriter := {}
  trace : List Event := []
deriving DecidableEq, Repr

/-- The libraries and the clock, as the handler sees them. `now k` is the value
of `time.Now().UTC()` when `k` effects have happened; `renderHTML` returns what
was written to the buffer and the error, if any. -/
structure Env where
  now : Nat → Time
  urlParse : String → Except String URL
  newRequest : String → String → Except String ClientRequest
  clientDo : Nat → ClientRequest → Except String ClientResponse
  fromReader : String → URL → Except String Article
  renderHTML : Article → String × Option String

/-! ## Logger -/

/-- The text of `fmt.Sprintf("%d", n)`. -/
def sprintfD (n : Int) : String := Int.repr n

/-- The loop of `formatDigits`: `for len(s) < digits { s = "0" + s }`. The
strings it meets consist of ASCII digits and `-`, so `len` is the number of
characters. -/
def formatDigitsLoop (s : String) (digits : Int) : String :=
  if (s.length : Int) < digits then formatDigitsLoop ("0" ++ s) digits else s
termination_by (digits - s.length).toNat
decreasing_by
  simp only [String.length_append]
  have h0 : ("0" : String).length = 1 := rfl
  omega

/-- The function `formatDigits` of `main.go`. -/
def formatDigits (num : Int) (digits : Int) : String :=
  formatDigitsLoop (sprintfD num) digits

/-- The `timestamp` string of `logMessage`. -/
def timestamp (now : Time) : String :=
  "[" ++ sprintfD now.year ++ "/" ++ sprintfD (now.month - 1) ++ "/" ++ sprintfD now.day
    ++ " " ++ sprintfD now.hour
    ++ ":" ++ formatDigits now.minute 2
    ++ ":" ++ formatDigits now.second 2
    ++ "." ++ formatDigits (now.nanosecond.tdiv 1000000) 3 ++ "]"

/-- The line `logMessage` prints: `fmt.Printf("%s %s\n", timestamp, message)`. -/
def logLine (now : Time) (message : String) : String :=
  timestamp now ++ " " ++ message ++ "\n"

/-- The function `logMessage` of `main.go`. -/
def logMessage (env : Env) (message : String) (s : State) : State :=
  let now := env.now s.trace.length
  { s with trace := s.trace ++ [Event.stdout (logLine now message)] }

/-! ## Response writer -/

/-- The call `w.Header().Set(key, value)`. -/
def State.headerSet (s : State) (key value : String) : State :=
  { w := { s.w with header := s.w.header.set key value }
    trace := s.trace ++ [Event.headerSet key value] }

/-- What `WriteHeader(code)` does to the writer: the first call fixes the status
and freezes the headers, a later call changes nothing. -/
def ResponseWriter.writeHeader (w : ResponseWriter) (code : Nat) : ResponseWriter :=
  match w.status with
  | some _ => w
  | none => { w with status := some code, sentHeader := w.header }

/-- The call `w.WriteHeader(code)`. -/
def State.writeHeader (s : State) (code : Nat) : State :=
  { w := s.w.writeHeader code
    trace := s.trace ++ [Event.writeHeader code] }

/-- A write to the body: an implicit `WriteHeader(200)` if the status has not
been written yet, then the chunk. -/
def State.write (s : State) (c : Chunk) : State :=
  let w := s.w.writeHeader 200
  { w := { w with body := w.body ++ [c] }
    trace := s.trace ++ [Event.write c] }

/-- The function `respondError` of `main.go`. -/
def respondError (errorStr : String) (detail : String) (s : State) : State :=
  let responseJson := [("status", "fail"), ("error", errorStr), ("detail", detail)]
  let s := s.headerSet "Content-Type" "application/json"
  s.write (Chunk.json responseJson)

/-! ## Trace and constants -/

/-- Append one event to the trace. -/
def State.emit (s : State) (e : Event) : State :=
  { s with trace := s.trace ++ [e] }

/-- The `User-Agent` the handler sends. -/
def userAgent : String :=
  "Mozilla/5.0 (Macintosh; Intel Mac OS X 10_15_7) AppleWebKit/537.36 (KHTML, like Gecko) Chrome/113.0.0.0 Safari/537.36 Edg/113.0.1774.42"

/-! ## Request handlers -/

/-- The part of `handleReadability` after `client.Do` has returned a response;
the deferred `resp.Body.Close()` runs when it returns. -/
def handleResponse (env : Env) (resourceUrl : String) (parsedURL : URL)
    (resp : ClientResponse) (s : State) : State :=
  let contentType := resp.header.get "Content-Type"
  let s := if contentType != "" then s else s
  let s := s.emit (Event.fromReader resp.body parsedURL)
  match env.fromReader resp.body parsedURL with
  | Except.error err =>
    let s := logMessage env (resourceUrl ++ ": error detail: " ++ err) s
    let s := respondError "PARSE_FAILURE" ("Error: " ++ err) s
    s.emit Event.bodyClose
  | Except.ok article =>
    let s := logMessage env (resourceUrl ++ ": Readability title: " ++ article.title) s
    let s := s.emit (Event.renderHTML article)
    match env.renderHTML article with
    | (_, some err) =>
      let s := logMessage env (resourceUrl ++ ": render error: " ++ err) s
      let s := respondError "PARSE_FAILURE" ("Error rendering: " ++ err) s
      s.emit Event.bodyClose
    | (contentBuf, none) =>
      let responseJson :=
        [("status", "success"), ("title", article.title), ("content", contentBuf)]
      let s := s.headerSet "Content-Type" "application/json"
      let s := s.write (Chunk.json responseJson)
      s.emit Event.bodyClose

/-- The function `handleReadability` of `main.go`. -/
def handleReadability (env : Env) (r : Request) (s : State) : State :=
  let s := logMessage env ("Incoming request: " ++ r.urlString) s
  let queryURL := r.query.get "url"
  if queryURL = "" then
    s.writeHeader 400
  else
    let resourceUrl := queryURL
    let s := logMessage env (resourceUrl ++ ": Request initiated") s
    let s := s.emit (Event.urlParse resourceUrl)
    match env.urlParse resourceUrl with
    | Except.error err =>
      let s := logMessage env (resourceUrl ++ ": error detail: " ++ err) s
      respondError "FETCH_FAILURE" ("Error: " ++ err) s
    | Except.ok parsedURL =>
      let s := s.emit (Event.newRequest "GET" resourceUrl)
      match env.newRequest "GET" resourceUrl with
      | Except.error err =>
        let s := logMessage env (resourceUrl ++ ": error detail: " ++ err) s
        respondError "FETCH_FAILURE" ("Error: " ++ err) s
      | Except.ok req =>
        let req := { req with header := req.header.set "User-Agent" userAgent }
        let s := s.emit (Event.clientDo 30 req)
        match env.clientDo 30 req with
        | Except.error err =>
          let s := logMessage env (resourceUrl ++ ": error detail: " ++ err) s
          respondError "FETCH_FAILURE" ("Error: " ++ err) s
        | Except.ok resp =>
          handleResponse env resourceUrl parsedURL resp s

/-- The function `handleOk` of `main.go`. -/
def handleOk (s : State) : State :=
  s.write (Chunk.bytes "ok")

/-! ## What the client receives -/

/-- The response as it leaves the server. -/
structure Response where
  status : Nat
  header : MultiMap
  body : List Chunk
deriving DecidableEq, Repr

/-- When the handler returns, the server writes the status line with code 200
if the handler has not written one. -/
def finish (w : ResponseWriter) : Response :=
  let w := w.writeHeader 200
  { status := w.status.getD 200, header := w.sentHeader, body := w.body }

/-- One request served by `handleReadability` from a fresh writer. -/
def serve (env : Env) (r : Request) : State :=
  handleReadability env r {}

/-- The response to one request to `/`. -/
def respond (env : Env) (r : Request) : Response :=
  finish (serve env r).w

/-! ## Vocabulary of the statements -/

/-- The decimal digit character of `d`, for `d < 10`: `'0' + d`. -/
def decimalDigit (d : Nat) : Char := Char.ofNat (48 + d)

/-- Exactly two decimal digits: `n` left-padded with `'0'`, for `n < 100`. -/
def twoDigits (n : Nat) : String :=
  String.mk [decimalDigit (n / 10), decimalDigit (n % 10)]

/-- Exactly three decimal digits: `n` left-padded with `'0'`, for `n < 1000`. -/
def threeDigits (n : Nat) : String :=
  String.mk [decimalDigit (n / 100), decimalDigit (n / 10 % 10), decimalDigit (n % 10)]

/-- The event is a call of the Extractor, `readability.FromReader`. -/
def Event.isExtractor : Event → Bool
  | Event.fromReader _ _ => true
  | _ => false

/-- The event is a call of the Fetcher, `http.NewRequest` or `client.Do`. -/
def Event.isFetcher : Event → Bool
  | Event.newRequest _ _ => true
  | Event.clientDo _ _ => true
  | _ => false

/-- The event touches the response: a header edit, the status line or a body
write. -/
def Event.isResponseWrite : Event → Bool
  | Event.headerSet _ _ => true
  | Event.writeHeader _ => true
  | Event.write _ => true
  | _ => false

/-- The headers of a JSON response: `Content-Type: application/json` only. -/
def jsonHeader : MultiMap := [("Content-Type", ["application/json"])]

/-- The JSON fail object. -/
def failObject (errorStr detail : String) : Chunk :=
  Chunk.json [("status", "fail"), ("error", errorStr), ("detail", detail)]

/-- The JSON success object. -/
def successObject (title content : String) : Chunk :=
  Chunk.json [("status", "success"), ("title", title), ("content", content)]

/-- The request `handleReadability` sends upstream, given what `http.NewRequest`
returned. -/
def withUserAgent (req : ClientRequest) : ClientRequest :=
  { req with header := req.header.set "User-Agent" userAgent }

/-- The writer after `respondError` has run on a fresh writer. -/
def failWriter (errorStr detail : String) : ResponseWriter :=
  { header := jsonHeader, status := some 200, sentHeader := jsonHeader,
    body := [failObject errorStr detail] }

/-- The two lines every request with a `url` logs first, and the call of
`url.Parse`. -/
def openingTrace (env : Env) (r : Request) : List Event :=
  [Event.stdout (logLine (env.now 0) ("Incoming request: " ++ r.urlString)),
   Event.stdout (logLine (env.now 1) (r.query.get "url" ++ ": Request initiated")),
   Event.urlParse (r.query.get "url")]

/-- The events of `respondError`. -/
def failEvents (errorStr detail : String) : List Event :=
  [Event.headerSet "Content-Type" "application/json", Event.write (failObject errorStr detail)]

/-- The trace up to and including `client.Do`. -/
def fetchTrace (env : Env) (r : Request) (req : ClientRequest) : List Event :=
  openingTrace env r
    ++ [Event.newRequest "GET" (r.query.get "url"), Event.clientDo 30 (withUserAgent req)]

/-- Response shape 1: a bare HTTP 400, no headers, no body. -/
def isBare400 (resp : Response) : Prop :=
  resp = { status := 400, header := [], body := [] }

/-- Response shape 2: HTTP 200 carrying one JSON success object. -/
def isSuccessJSON (resp : Response) : Prop :=
  ∃ title content,
    resp = { status := 200, header := jsonHeader, body := [successObject title content] }

/-- Response shape 3: HTTP 200 carrying one JSON fail object. -/
def isFailJSON (resp : Response) : Prop :=
  ∃ errorStr detail,
    resp = { status := 200, header := jsonHeader, body := [failObject errorStr detail] }

/-! ## Concrete environments -/

/-- A moment of 25 May 2023 (Go month 5). -/
def demoTime : Time :=
  { year := 2023, month := 5, day := 25, hour := 15, minute := 5, second := 7,
    nanosecond := 23456789 }

/-- An environment in which every stage succeeds on an HTML page. -/
def demoEnv : Env where
  now := fun _ => demoTime
  urlParse := fun u => Except.ok { text := u }
  newRequest := fun m u => Except.ok { method := m, url := u, header := [] }
  clientDo := fun _ _ =>
    Except.ok
      { statusCode := 200, header := [("Content-Type", ["text/html"])],
        body := "<html><body><article><h1>Hi</h1><p>Text</p></article></body></html>" }
  fromReader := fun _ _ => Except.ok { title := "Hi", node := "article" }
  renderHTML := fun _ => ("<article><h1>Hi</h1><p>Text</p></article>", none)

/-- A request for `https://example.com/article`. -/
def demoRequest : Request :=
  { urlString := "/?url=https%3A%2F%2Fexample.com%2Farticle"
    query := [("url", ["https://example.com/article"])] }

/-- A request without a `url` parameter. -/
def bareRequest : Request := { urlString := "/", query := [] }

/-- A request whose `url` does not parse. -/
def badRequest : Request := { urlString := "/?url=%3A", query := [("url", [":"])] }

/-- As `demoEnv`, with `url.Parse` rejecting every input. -/
def parseFailEnv : Env :=
  { demoEnv with urlParse := fun _ => Except.error "missing protocol scheme" }

/-- As `demoEnv`, with the transport failing. -/
def transportFailEnv : Env :=
  { demoEnv with clientDo := fun _ _ => Except.error "context deadline exceeded" }

/-- As `demoEnv`, with the Extractor failing. -/
def extractFailEnv : Env :=
  { demoEnv with fromReader := fun _ _ => Except.error "document is empty" }

/-- As `demoEnv`, with the renderer failing after a partial write. -/
def renderFailEnv : Env :=
  { demoEnv with renderHTML := fun _ => ("<article>", some "short write") }

/-- As `demoEnv`, with the upstream answering 404 with other headers and the same
body. -/
def notFoundEnv : Env :=
  { demoEnv with
    clientDo := fun _ _ =>
      Except.ok
        { statusCode := 404, header := [("Content-Type", ["application/pdf"])],
          body := "<html><body><article><h1>Hi</h1><p>Text</p></article></body></html>" } }

/-- An upstream that serves a PDF, declared as `application/pdf`, which the
Extractor cannot make an article of. -/
def pdfEnv : Env :=
  { demoEnv with
    clientDo := fun _ _ =>
      Except.ok
        { statusCode := 200, header := [("Content-Type", ["application/pdf"])],
          body := "%PDF-1.7" }
    fromReader := fun _ _ => Except.error "no content found" }

/-- A request for `https://example.com/paper.pdf`. -/
def pdfRequest : Request :=
  { urlString := "/?url=https%3A%2F%2Fexample.com%2Fpaper.pdf"
    query := [("url", ["https://example.com/paper.pdf"])] }

/-! ## Lemmas on the logger -/

/-- The loop stops as soon as the string is long enough. -/
theorem formatDigitsLoop_of_le (s : String) (digits : Int) (h : digits ≤ (s.length : Int)) :
    formatDigitsLoop s digits = s := by
  rw [formatDigitsLoop]
  simp [not_lt.mpr h]

/-- The loop adds one `0` while the string is too short. -/
theorem formatDigitsLoop_of_lt (s : String) (digits : Int) (h : (s.length : Int) < digits) :
    formatDigitsLoop s digits = formatDigitsLoop ("0" ++ s) digits := by
  rw [formatDigitsLoop]
  simp [h]

/-- A number below ten is printed as one digit. -/
theorem toDigitsCore_small (f n : Nat) (ds : List Char) (h : n < 10) :
    Nat.toDigitsCore 10 (f + 1) n ds = Nat.digitChar n :: ds := by
  have h0 : n / 10 = 0 := Nat.div_eq_of_lt h
  have h1 : n % 10 = n := Nat.mod_eq_of_lt h
  simp [Nat.toDigitsCore, h0, h1]

/-- A number from ten on: the last digit is peeled off. -/
theorem toDigitsCore_large (f n : Nat) (ds : List Char) (h : 10 ≤ n) :
    Nat.toDigitsCore 10 (f + 1) n ds
      = Nat.toDigitsCore 10 f (n / 10) (Nat.digitChar (n % 10) :: ds) := by
  have h0 : n / 10 ≠ 0 := by omega
  simp [Nat.toDigitsCore, h0]

/-- The digits of a number below 10. -/
theorem toDigits_one (k : Nat) (h : k < 10) : Nat.toDigits 10 k = [Nat.digitChar k] := by
  simp [Nat.toDigits, toDigitsCore_small k k [] h]

/-- The digits of a number in 10..99. -/
theorem toDigits_two (k : Nat) (h1 : 10 ≤ k) (h2 : k < 100) :
    Nat.toDigits 10 k = [Nat.digitChar (k / 10), Nat.digitChar (k % 10)] := by
  obtain ⟨f, rfl⟩ : ∃ f, k = f + 1 := ⟨k - 1, by omega⟩
  unfold Nat.toDigits
  rw [toDigitsCore_large _ _ _ h1]
  exact toDigitsCore_small _ _ _ (by omega)

/-- The digits of a number in 100..999. -/
theorem toDigits_three (k : Nat) (h1 : 100 ≤ k) (h2 : k < 1000) :
    Nat.toDigits 10 k
      = [Nat.digitChar (k / 100), Nat.digitChar (k / 10 % 10), Nat.digitChar (k % 10)] := by
  obtain ⟨f, rfl⟩ : ∃ f, k = f + 2 := ⟨k - 2, by omega⟩
  unfold Nat.toDigits
  rw [toDigitsCore_large _ _ _ (by omega), toDigitsCore_large _ _ _ (by omega),
    toDigitsCore_small _ _ _ (by omega)]
  have : (f + 2) / 10 / 10 = (f + 2) / 100 := by omega
  rw [this]


/-- The digit character of the library is `decimalDigit`. -/
theorem digitChar_eq_decimalDigit (d : Nat) (h : d < 10) : Nat.digitChar d = decimalDigit d := by
  interval_cases d <;> rfl

/-- The text of `%d` for a natural number. -/
theorem sprintfD_natCast (k : Nat) : sprintfD (k : Int) = String.mk (Nat.toDigits 10 k) := rfl

/-- The string `0` in front of a string: one more character. -/
theorem zero_append_mk (cs : List Char) : "0" ++ String.mk cs = String.mk ('0' :: cs) := rfl

/-- The result of `formatDigits n 2` for `n` in 0..99. -/
theorem formatDigits_two (n : Int) (h0 : 0 ≤ n) (h1 : n ≤ 99) :
    formatDigits n 2 = twoDigits n.toNat := by
  obtain ⟨k, rfl⟩ := Int.eq_ofNat_of_zero_le h0
  have hk : k < 100 := by omega
  simp only [Int.toNat_ofNat, formatDigits, sprintfD_natCast, twoDigits]
  by_cases hs : k < 10
  · rw [toDigits_one k hs, formatDigitsLoop_of_lt _ _ (by simp [String.length]), zero_append_mk,
      formatDigitsLoop_of_le _ _ (by simp [String.length]), Nat.div_eq_of_lt hs,
      Nat.mod_eq_of_lt hs, digitChar_eq_decimalDigit k hs]
    rfl
  · rw [toDigits_two k (by omega) hk, formatDigitsLoop_of_le _ _ (by simp [String.length]),
      digitChar_eq_decimalDigit _ (by omega), digitChar_eq_decimalDigit _ (by omega)]

/-- The result of `formatDigits n 3` for `n` in 0..999. -/
theorem formatDigits_three (n : Int) (h0 : 0 ≤ n) (h1 : n ≤ 999) :
    formatDigits n 3 = threeDigits n.toNat := by
  obtain ⟨k, rfl⟩ := Int.eq_ofNat_of_zero_le h0
  have hk : k < 1000 := by omega
  simp only [Int.toNat_ofNat, formatDigits, sprintfD_natCast, threeDigits]
  by_cases hs : k < 10
  · rw [toDigits_one k hs, formatDigitsLoop_of_lt _ _ (by simp [String.length]), zero_append_mk,
      formatDigitsLoop_of_lt _ _ (by simp [String.length]), zero_append_mk,
      formatDigitsLoop_of_le _ _ (by simp [String.length]),
      digitChar_eq_decimalDigit k hs]
    have e1 : k / 100 = 0 := by omega
    have e2 : k / 10 % 10 = 0 := by omega
    have e3 : k % 10 = k := by omega
    rw [e1, e2, e3]
    rfl
  · by_cases hm : k < 100
    · rw [toDigits_two k (by omega) hm, formatDigitsLoop_of_lt _ _ (by simp [String.length]),
        zero_append_mk, formatDigitsLoop_of_le _ _ (by simp [String.length]),
        digitChar_eq_decimalDigit _ (by omega), digitChar_eq_decimalDigit _ (by omega)]
      have e1 : k / 100 = 0 := by omega
      have e2 : k / 10 % 10 = k / 10 := by omega
      rw [e1, e2]
      rfl
    · rw [toDigits_three k (by omega) hk, formatDigitsLoop_of_le _ _ (by simp [String.length]),
        digitChar_eq_decimalDigit _ (by omega), digitChar_eq_decimalDigit _ (by omega),
        digitChar_eq_decimalDigit _ (by omega)]


/-- Go division of a non-negative nanosecond count by a million. -/
theorem tdiv_million_toNat (n : Int) (h0 : 0 ≤ n) :
    (n.tdiv 1000000).toNat = n.toNat / 1000000 ∧ 0 ≤ n.tdiv 1000000 := by
  obtain ⟨k, rfl⟩ := Int.eq_ofNat_of_zero_le h0
  rw [Int.tdiv_eq_ediv h0 (by decide)]
  constructor
  · simp
    omega
  · omega

/-! ## The paths through the handler -/

/-- Setting a key in an empty map. -/
theorem MultiMap.set_nil (key value : String) :
    MultiMap.set [] key value = [(key, [value])] := rfl

/-- Path 1: no `url`. -/
theorem serve_no_url (env : Env) (r : Request) (h : r.query.get "url" = "") :
    serve env r
      = { w := { status := some 400 }
          trace := [Event.stdout (logLine (env.now 0) ("Incoming request: " ++ r.urlString)),
                    Event.writeHeader 400] } := by
  simp [serve, handleReadability, h, logMessage, State.writeHeader, ResponseWriter.writeHeader]

/-- Path 2: `url.Parse` fails. -/
theorem serve_parse_error (env : Env) (r : Request) (e : String)
    (hurl : r.query.get "url" ≠ "")
    (hp : env.urlParse (r.query.get "url") = Except.error e) :
    serve env r
      = { w := failWriter "FETCH_FAILURE" ("Error: " ++ e)
          trace := openingTrace env r
            ++ [Event.stdout (logLine (env.now 3) (r.query.get "url" ++ ": error detail: " ++ e))]
            ++ failEvents "FETCH_FAILURE" ("Error: " ++ e) } := by
  simp [serve, handleReadability, hurl, hp, logMessage, respondError, State.headerSet,
    State.write, State.emit, ResponseWriter.writeHeader, MultiMap.set_nil, jsonHeader,
    failObject, failWriter, openingTrace, failEvents]

/-- Path 3: `http.NewRequest` fails. -/
theorem serve_request_error (env : Env) (r : Request) (p : URL) (e : String)
    (hurl : r.query.get "url" ≠ "")
    (hp : env.urlParse (r.query.get "url") = Except.ok p)
    (hq : env.newRequest "GET" (r.query.get "url") = Except.error e) :
    serve env r
      = { w := failWriter "FETCH_FAILURE" ("Error: " ++ e)
          trace := openingTrace env r
            ++ [Event.newRequest "GET" (r.query.get "url"),
                Event.stdout (logLine (env.now 4) (r.query.get "url" ++ ": error detail: " ++ e))]
            ++ failEvents "FETCH_FAILURE" ("Error: " ++ e) } := by
  simp [serve, handleReadability, hurl, hp, hq, logMessage, respondError, State.headerSet,
    State.write, State.emit, ResponseWriter.writeHeader, MultiMap.set_nil, jsonHeader,
    failObject, failWriter, openingTrace, failEvents]

/-- Path 4: `client.Do` fails. -/
theorem serve_transport_error (env : Env) (r : Request) (p : URL) (req : ClientRequest)
    (e : String)
    (hurl : r.query.get "url" ≠ "")
    (hp : env.urlParse (r.query.get "url") = Except.ok p)
    (hq : env.newRequest "GET" (r.query.get "url") = Except.ok req)
    (hd : env.clientDo 30 (withUserAgent req) = Except.error e) :
    serve env r
      = { w := failWriter "FETCH_FAILURE" ("Error: " ++ e)
          trace := fetchTrace env r req
            ++ [Event.stdout (logLine (env.now 5) (r.query.get "url" ++ ": error detail: " ++ e))]
            ++ failEvents "FETCH_FAILURE" ("Error: " ++ e) } := by
  unfold withUserAgent at hd
  simp [serve, handleReadability, hurl, hp, hq, hd, logMessage, respondError, State.headerSet,
    State.write, State.emit, ResponseWriter.writeHeader, MultiMap.set_nil, jsonHeader,
    failObject, failWriter, openingTrace, failEvents, fetchTrace, withUserAgent]

/-- Once `client.Do` has returned a response, the rest is `handleResponse`. -/
theorem serve_fetched (env : Env) (r : Request) (p : URL) (req : ClientRequest)
    (resp : ClientResponse)
    (hurl : r.query.get "url" ≠ "")
    (hp : env.urlParse (r.query.get "url") = Except.ok p)
    (hq : env.newRequest "GET" (r.query.get "url") = Except.ok req)
    (hd : env.clientDo 30 (withUserAgent req) = Except.ok resp) :
    serve env r
      = handleResponse env (r.query.get "url") p resp { trace := fetchTrace env r req } := by
  unfold withUserAgent at hd
  simp [serve, handleReadability, hurl, hp, hq, hd, logMessage, State.emit,
    openingTrace, fetchTrace, withUserAgent]

/-- Path 5: the Extractor fails. -/
theorem handleResponse_extract_error (env : Env) (u : String) (p : URL) (resp : ClientResponse)
    (pre : List Event) (e : String)
    (hx : env.fromReader resp.body p = Except.error e) :
    handleResponse env u p resp { trace := pre }
      = { w := failWriter "PARSE_FAILURE" ("Error: " ++ e)
          trace := pre
            ++ [Event.fromReader resp.body p,
                Event.stdout (logLine (env.now (pre.length + 1)) (u ++ ": error detail: " ++ e))]
            ++ failEvents "PARSE_FAILURE" ("Error: " ++ e) ++ [Event.bodyClose] } := by
  simp [handleResponse, hx, logMessage, respondError, State.headerSet,
    State.write, State.emit, ResponseWriter.writeHeader, MultiMap.set_nil, jsonHeader,
    failObject, failWriter, failEvents]

/-- Path 6: the renderer fails. -/
theorem handleResponse_render_error (env : Env) (u : String) (p : URL) (resp : ClientResponse)
    (pre : List Event) (article : Article) (buf e : String)
    (hx : env.fromReader resp.body p = Except.ok article)
    (hr : env.renderHTML article = (buf, some e)) :
    handleResponse env u p resp { trace := pre }
      = { w := failWriter "PARSE_FAILURE" ("Error rendering: " ++ e)
          trace := pre
            ++ [Event.fromReader resp.body p,
                Event.stdout (logLine (env.now (pre.length + 1))
                  (u ++ ": Readability title: " ++ article.title)),
                Event.renderHTML article,
                Event.stdout (logLine (env.now (pre.length + 3)) (u ++ ": render error: " ++ e))]
            ++ failEvents "PARSE_FAILURE" ("Error rendering: " ++ e) ++ [Event.bodyClose] } := by
  simp [handleResponse, hx, hr, logMessage, respondError, State.headerSet,
    State.write, State.emit, ResponseWriter.writeHeader, MultiMap.set_nil, jsonHeader,
    failObject, failWriter, failEvents]

/-- Path 7: every stage succeeds. -/
theorem handleResponse_success (env : Env) (u : String) (p : URL) (resp : ClientResponse)
    (pre : List Event) (article : Article) (buf : String)
    (hx : env.fromReader resp.body p = Except.ok article)
    (hr : env.renderHTML article = (buf, none)) :
    handleResponse env u p resp { trace := pre }
      = { w := { header := jsonHeader, status := some 200, sentHeader := jsonHeader,
                 body := [successObject article.title buf] }
          trace := pre
            ++ [Event.fromReader resp.body p,
                Event.stdout (logLine (env.now (pre.length + 1))
                  (u ++ ": Readability title: " ++ article.title)),
                Event.renderHTML article,
                Event.headerSet "Content-Type" "application/json",
                Event.write (successObject article.title buf),
                Event.bodyClose] } := by
  simp [handleResponse, hx, hr, logMessage, State.headerSet,
    State.write, State.emit, ResponseWriter.writeHeader, MultiMap.set_nil, jsonHeader,
    successObject]

/-- The text of `%d` is the standard decimal text of the integer. -/
theorem sprintfD_eq_toString (n : Int) : sprintfD n = toString n := by
  cases n <;> rfl

/-- The `url` parameter reads as empty exactly when it is missing, has no value,
or has the empty string as its first value. -/
theorem get_eq_empty_iff (m : MultiMap) (key : String) :
    m.get key = ""
      ↔ (m.lookup key = none ∨ m.lookup key = some []
          ∨ ∃ vs, m.lookup key = some ("" :: vs)) := by
  unfold MultiMap.get
  rcases h : m.lookup key with _ | vs
  · simp
  · cases vs with
    | nil => simp
    | cons v vs => simp

/-! ## The logger -/

/-- Claim C7: for a UTC time whose month is in 1..12, minute and second in 0..59
and nanosecond in 0..999999999, the line `logMessage` prints is
`[Y/(M-1)/D H:MM:SS.mmm]`, a space, the message and a newline, where the year,
the zero-based month, the day and the hour are plain decimals without padding,
`MM` and `SS` are exactly two decimal digits and `mmm` is exactly three, the
digits of the minute, the second and of `nanosecond / 1000000` padded on the
left with `0`. -/
theorem logMessage_line_format (now : Time) (message : String)
    (hmonth : 1 ≤ now.month ∧ now.month ≤ 12)
    (hminute : 0 ≤ now.minute ∧ now.minute ≤ 59)
    (hsecond : 0 ≤ now.second ∧ now.second ≤ 59)
    (hnano : 0 ≤ now.nanosecond ∧ now.nanosecond ≤ 999999999) :
    logLine now message
        = "[" ++ toString now.year ++ "/" ++ toString (now.month - 1) ++ "/" ++ toString now.day
          ++ " " ++ toString now.hour
          ++ ":" ++ twoDigits now.minute.toNat
          ++ ":" ++ twoDigits now.second.toNat
          ++ "." ++ threeDigits (now.nanosecond.toNat / 1000000) ++ "]"
          ++ " " ++ message ++ "\n"
      ∧ (0 ≤ now.month - 1 ∧ now.month - 1 ≤ 11)
      ∧ (twoDigits now.minute.toNat).length = 2
      ∧ (twoDigits now.second.toNat).length = 2
      ∧ (threeDigits (now.nanosecond.toNat / 1000000)).length = 3
      ∧ ∀ (env : Env) (s : State),
          (logMessage env message s).trace
            = s.trace ++ [Event.stdout (logLine (env.now s.trace.length) message)] := by
  obtain ⟨hd, hp⟩ := tdiv_million_toNat now.nanosecond hnano.1
  have hle : now.nanosecond.tdiv 1000000 ≤ 999 := by
    rw [Int.tdiv_eq_ediv hnano.1 (by decide)]
    omega
  refine ⟨?_, ⟨by omega, by omega⟩, rfl, rfl, rfl, fun _ _ => rfl⟩
  simp only [logLine, timestamp, formatDigits_two _ hminute.1 (by omega),
    formatDigits_two _ hsecond.1 (by omega), formatDigits_three _ hp hle, hd,
    sprintfD_eq_toString]

/-- Witness of C7: at 15:05:07.023456789 on 25 May 2023 the line for `hi` is
`[2023/4/25 15:05:07.023] hi`. -/
theorem logMessage_line_format_witness :
    logLine demoTime "hi" = "[2023/4/25 15:05:07.023] hi\n" := by
  have h := (logMessage_line_format demoTime "hi"
    (by decide) (by decide) (by decide) (by decide)).1
  rw [h]
  decide

/-! ## The request handler -/

/-- Claim C1: when the `url` query parameter is empty or missing, the response is
HTTP 400 with no body and no header: no JSON object is written and no
`Content-Type` is set; the handler only logs the arrival line and writes the
status. -/
theorem missing_url_bare_400 (env : Env) (r : Request) (h : r.query.get "url" = "") :
    respond env r = { status := 400, header := [], body := [] }
      ∧ (serve env r).w.header = []
      ∧ (serve env r).trace
          = [Event.stdout (logLine (env.now 0) ("Incoming request: " ++ r.urlString)),
             Event.writeHeader 400] := by
  rw [respond, serve_no_url env r h]
  simp [finish, ResponseWriter.writeHeader]

/-- Witness of C1: a request to `/` without parameters. -/
theorem missing_url_bare_400_witness :
    respond demoEnv bareRequest = { status := 400, header := [], body := [] } :=
  (missing_url_bare_400 demoEnv bareRequest (by decide)).1

/-- The response a fail writer yields. -/
theorem finish_failWriter (errorStr detail : String) :
    finish (failWriter errorStr detail)
      = { status := 200, header := jsonHeader, body := [failObject errorStr detail] } := by
  simp [finish, failWriter, ResponseWriter.writeHeader]

/-- Claim C3: with a non-empty `url`, when `url.Parse`, `http.NewRequest` or
`client.Do` fails with error `e`, the response is HTTP 200 carrying the JSON
object with status `fail`, error `FETCH_FAILURE` and detail `Error: ` followed
by the message of `e`, and the Extractor is never called. -/
theorem fetch_failure_response (env : Env) (r : Request) (e : String)
    (hurl : r.query.get "url" ≠ "")
    (hfail : env.urlParse (r.query.get "url") = Except.error e
      ∨ (∃ p, env.urlParse (r.query.get "url") = Except.ok p
          ∧ env.newRequest "GET" (r.query.get "url") = Except.error e)
      ∨ (∃ p req, env.urlParse (r.query.get "url") = Except.ok p
          ∧ env.newRequest "GET" (r.query.get "url") = Except.ok req
          ∧ env.clientDo 30 (withUserAgent req) = Except.error e)) :
    respond env r
        = { status := 200, header := jsonHeader,
            body := [failObject "FETCH_FAILURE" ("Error: " ++ e)] }
      ∧ ∀ ev ∈ (serve env r).trace, ev.isExtractor = false := by
  rcases hfail with hp | ⟨p, hp, hq⟩ | ⟨p, req, hp, hq, hd⟩
  · rw [respond, serve_parse_error env r e hurl hp]
    refine ⟨finish_failWriter _ _, ?_⟩
    simp [openingTrace, failEvents, Event.isExtractor]
  · rw [respond, serve_request_error env r p e hurl hp hq]
    refine ⟨finish_failWriter _ _, ?_⟩
    simp [openingTrace, failEvents, Event.isExtractor]
  · rw [respond, serve_transport_error env r p req e hurl hp hq hd]
    refine ⟨finish_failWriter _ _, ?_⟩
    simp [fetchTrace, openingTrace, failEvents, Event.isExtractor]

/-- Witness of C3: the transport times out. -/
theorem fetch_failure_response_witness :
    respond transportFailEnv demoRequest
      = { status := 200, header := jsonHeader,
          body := [failObject "FETCH_FAILURE" "Error: context deadline exceeded"] } :=
  (fetch_failure_response transportFailEnv demoRequest "context deadline exceeded"
    (by decide) (Or.inr (Or.inr ⟨_, _, rfl, rfl, rfl⟩))).1

/-- Claim C4: when the fetch succeeds, an Extractor error `e` yields the fail
object with error `PARSE_FAILURE` and detail `Error: ` followed by `e`, and a
renderer error `e` after a successful extraction yields the fail object with
error `PARSE_FAILURE` and detail `Error rendering: ` followed by `e`; in both
cases the body holds no success object. -/
theorem parse_failure_response (env : Env) (r : Request) (p : URL) (req : ClientRequest)
    (resp : ClientResponse) (e : String)
    (hurl : r.query.get "url" ≠ "")
    (hp : env.urlParse (r.query.get "url") = Except.ok p)
    (hq : env.newRequest "GET" (r.query.get "url") = Except.ok req)
    (hd : env.clientDo 30 (withUserAgent req) = Except.ok resp) :
    (env.fromReader resp.body p = Except.error e →
        respond env r
            = { status := 200, header := jsonHeader,
                body := [failObject "PARSE_FAILURE" ("Error: " ++ e)] }
          ∧ ∀ title content, successObject title content ∉ (respond env r).body)
      ∧ (∀ article buf, env.fromReader resp.body p = Except.ok article →
          env.renderHTML article = (buf, some e) →
          respond env r
              = { status := 200, header := jsonHeader,
                  body := [failObject "PARSE_FAILURE" ("Error rendering: " ++ e)] }
            ∧ ∀ title content, successObject title content ∉ (respond env r).body) := by
  constructor
  · intro hx
    rw [respond, serve_fetched env r p req resp hurl hp hq hd,
      handleResponse_extract_error env _ p resp _ e hx]
    refine ⟨finish_failWriter _ _, ?_⟩
    simp [finish_failWriter, failObject, successObject]
  · intro article buf hx hr
    rw [respond, serve_fetched env r p req resp hurl hp hq hd,
      handleResponse_render_error env _ p resp _ article buf e hx hr]
    refine ⟨finish_failWriter _ _, ?_⟩
    simp [finish_failWriter, failObject, successObject]

/-- Witness of C4: the Extractor rejects the document, and the renderer fails
after a partial write. -/
theorem parse_failure_response_witness :
    respond extractFailEnv demoRequest
        = { status := 200, header := jsonHeader,
            body := [failObject "PARSE_FAILURE" "Error: document is empty"] }
      ∧ respond renderFailEnv demoRequest
        = { status := 200, header := jsonHeader,
            body := [failObject "PARSE_FAILURE" "Error rendering: short write"] } :=
  ⟨((parse_failure_response extractFailEnv demoRequest _ _ _ "document is empty"
      (by decide) rfl rfl rfl).1 rfl).1,
   ((parse_failure_response renderFailEnv demoRequest _ _ _ "short write"
      (by decide) rfl rfl rfl).2 _ _ rfl rfl).1⟩

/-- Claim C5: when URL parsing, fetch, extraction and rendering all succeed, the
response is HTTP 200 with `Content-Type: application/json` carrying exactly the
JSON object with status `success`, the article title and the rendered HTML; the
object has no `error` and no `detail` key. -/
theorem success_response (env : Env) (r : Request) (p : URL) (req : ClientRequest)
    (resp : ClientResponse) (article : Article) (buf : String)
    (hurl : r.query.get "url" ≠ "")
    (hp : env.urlParse (r.query.get "url") = Except.ok p)
    (hq : env.newRequest "GET" (r.query.get "url") = Except.ok req)
    (hd : env.clientDo 30 (withUserAgent req) = Except.ok resp)
    (hx : env.fromReader resp.body p = Except.ok article)
    (hr : env.renderHTML article = (buf, none)) :
    respond env r
        = { status := 200, header := [("Content-Type", ["application/json"])],
            body := [Chunk.json
              [("status", "success"), ("title", article.title), ("content", buf)]] }
      ∧ ∀ obj, Chunk.json obj ∈ (respond env r).body →
          obj.lookup "error" = none ∧ obj.lookup "detail" = none := by
  rw [respond, serve_fetched env r p req resp hurl hp hq hd,
    handleResponse_success env _ p resp _ article buf hx hr]
  refine ⟨by simp [finish, ResponseWriter.writeHeader, jsonHeader, successObject], ?_⟩
  intro obj hobj
  have hobj2 : obj = [("status", "success"), ("title", article.title), ("content", buf)] := by
    simpa [finish, ResponseWriter.writeHeader, successObject] using hobj
  subst hobj2
  exact ⟨rfl, rfl⟩

/-- Witness of C5: the article page of the demonstration environment. -/
theorem success_response_witness :
    respond demoEnv demoRequest
      = { status := 200, header := [("Content-Type", ["application/json"])],
          body := [Chunk.json
            [("status", "success"), ("title", "Hi"),
             ("content", "<article><h1>Hi</h1><p>Text</p></article>")]] } :=
  (success_response demoEnv demoRequest _ _ _ _ _ (by decide) rfl rfl rfl rfl rfl).1

/-- Claim C6: when `url` is empty or does not parse, the handler returns without
calling the Fetcher: neither `http.NewRequest` nor `client.Do` occurs in the
trace. -/
theorem no_fetch_on_rejected_url (env : Env) (r : Request)
    (h : r.query.get "url" = ""
      ∨ ∃ e, env.urlParse (r.query.get "url") = Except.error e) :
    ∀ ev ∈ (serve env r).trace, ev.isFetcher = false := by
  by_cases hurl : r.query.get "url" = ""
  · rw [serve_no_url env r hurl]
    simp [Event.isFetcher]
  · rcases h with h | ⟨e, hp⟩
    · exact absurd h hurl
    · rw [serve_parse_error env r e hurl hp]
      simp [openingTrace, failEvents, Event.isFetcher]

/-- Witness of C6: a request without `url`, and a request whose `url` is
rejected by the parser. -/
theorem no_fetch_on_rejected_url_witness :
    (∀ ev ∈ (serve demoEnv bareRequest).trace, ev.isFetcher = false)
      ∧ (∀ ev ∈ (serve parseFailEnv badRequest).trace, ev.isFetcher = false) :=
  ⟨no_fetch_on_rejected_url demoEnv bareRequest (Or.inl (by decide)),
   no_fetch_on_rejected_url parseFailEnv badRequest (Or.inr ⟨_, rfl⟩)⟩

/-- Every request takes one of the seven paths through the handler. -/
theorem serve_paths (env : Env) (r : Request) :
    (r.query.get "url" = "" ∧ serve env r
        = { w := { status := some 400 }
            trace := [Event.stdout (logLine (env.now 0) ("Incoming request: " ++ r.urlString)),
                      Event.writeHeader 400] })
      ∨ (r.query.get "url" ≠ "" ∧ ∃ pre post errorStr e,
          (serve env r).w = failWriter errorStr ("Error: " ++ e)
            ∧ (errorStr = "FETCH_FAILURE" ∨ errorStr = "PARSE_FAILURE")
            ∧ (serve env r).trace
                = openingTrace env r ++ pre
                  ++ [Event.stdout (logLine (env.now (3 + pre.length))
                        (r.query.get "url" ++ ": error detail: " ++ e))]
                  ++ failEvents errorStr ("Error: " ++ e) ++ post
            ∧ ∀ ev ∈ pre, ev.isResponseWrite = false)
      ∨ (r.query.get "url" ≠ "" ∧ ∃ pre post e,
          (serve env r).w = failWriter "PARSE_FAILURE" ("Error rendering: " ++ e)
            ∧ (serve env r).trace
                = openingTrace env r ++ pre
                  ++ [Event.stdout (logLine (env.now (3 + pre.length))
                        (r.query.get "url" ++ ": render error: " ++ e))]
                  ++ failEvents "PARSE_FAILURE" ("Error rendering: " ++ e) ++ post
            ∧ ∀ ev ∈ pre, ev.isResponseWrite = false)
      ∨ (r.query.get "url" ≠ "" ∧ ∃ title content rest,
          (serve env r).w
              = { header := jsonHeader, status := some 200, sentHeader := jsonHeader,
                  body := [successObject title content] }
            ∧ (serve env r).trace = openingTrace env r ++ rest) := by
  by_cases hurl : r.query.get "url" = ""
  · exact Or.inl ⟨hurl, serve_no_url env r hurl⟩
  · right
    rcases hp : env.urlParse (r.query.get "url") with e | p
    · left
      refine ⟨hurl, [], [], "FETCH_FAILURE", e, ?_⟩
      rw [serve_parse_error env r e hurl hp]
      simp
    · rcases hq : env.newRequest "GET" (r.query.get "url") with e | req
      · left
        refine ⟨hurl, [Event.newRequest "GET" (r.query.get "url")], [],
          "FETCH_FAILURE", e, ?_⟩
        rw [serve_request_error env r p e hurl hp hq]
        simp [Event.isResponseWrite]
      · rcases hd : env.clientDo 30 (withUserAgent req) with e | resp
        · left
          refine ⟨hurl, [Event.newRequest "GET" (r.query.get "url"),
            Event.clientDo 30 (withUserAgent req)], [],
            "FETCH_FAILURE", e, ?_⟩
          rw [serve_transport_error env r p req e hurl hp hq hd]
          simp [Event.isResponseWrite, fetchTrace]
        · rw [serve_fetched env r p req resp hurl hp hq hd]
          rcases hx : env.fromReader resp.body p with e | article
          · left
            refine ⟨hurl, [Event.newRequest "GET" (r.query.get "url"),
              Event.clientDo 30 (withUserAgent req), Event.fromReader resp.body p],
              [Event.bodyClose], "PARSE_FAILURE", e, ?_⟩
            rw [handleResponse_extract_error env _ p resp _ e hx]
            simp [Event.isResponseWrite, fetchTrace, openingTrace]
          · rcases hr : env.renderHTML article with ⟨buf, _ | e⟩
            · right; right
              refine ⟨hurl, article.title, buf, ?_⟩
              rw [handleResponse_success env _ p resp _ article buf hx hr]
              simp [fetchTrace]
            · right; left
              refine ⟨hurl, [Event.newRequest "GET" (r.query.get "url"),
                Event.clientDo 30 (withUserAgent req), Event.fromReader resp.body p,
                Event.stdout (logLine (env.now 6)
                  (r.query.get "url" ++ ": Readability title: " ++ article.title)),
                Event.renderHTML article],
                [Event.bodyClose], e, ?_⟩
              rw [handleResponse_render_error env _ p resp _ article buf e hx hr]
              simp [Event.isResponseWrite, fetchTrace, openingTrace]

/-- A fail object determines its error label and its detail. -/
theorem failObject_inj (a b c d : String) (h : failObject a b = failObject c d) :
    a = c ∧ b = d := by
  simpa [failObject] using h

/-- A success object is never a fail object. -/
theorem successObject_ne_failObject (t c e d : String) :
    successObject t c ≠ failObject e d := by
  simp [successObject, failObject]

/-- Claim C8: whatever the request and whatever the fetch, the extraction and the
rendering do, the response has exactly one of three shapes: a bare HTTP 400
without body, one JSON success object, or one JSON fail object; and every fail
object in the body has the error label `FETCH_FAILURE` or `PARSE_FAILURE` and a
detail that begins with `Error: ` or with `Error rendering: `. -/
theorem response_shapes (env : Env) (r : Request) :
    ((isBare400 (respond env r) ∧ ¬ isSuccessJSON (respond env r)
          ∧ ¬ isFailJSON (respond env r))
        ∨ (¬ isBare400 (respond env r) ∧ isSuccessJSON (respond env r)
          ∧ ¬ isFailJSON (respond env r))
        ∨ (¬ isBare400 (respond env r) ∧ ¬ isSuccessJSON (respond env r)
          ∧ isFailJSON (respond env r)))
      ∧ ∀ errorStr detail, failObject errorStr detail ∈ (respond env r).body →
          (errorStr = "FETCH_FAILURE" ∨ errorStr = "PARSE_FAILURE")
            ∧ ∃ m, detail = "Error: " ++ m ∨ detail = "Error rendering: " ++ m := by
  rcases serve_paths env r with ⟨-, h⟩ | ⟨-, pre, post, errorStr, e, hw, hlabel, -⟩
    | ⟨-, pre, post, e, hw, -⟩ | ⟨-, title, content, rest, hw, -⟩
  · have hresp : respond env r = { status := 400, header := [], body := [] } := by
      rw [respond, h]
      simp [finish, ResponseWriter.writeHeader]
    rw [hresp]
    refine ⟨Or.inl ⟨rfl, ?_, ?_⟩, ?_⟩
    · rintro ⟨t, c, hc⟩
      simp at hc
    · rintro ⟨a, d, hc⟩
      simp at hc
    · intro a d hmem
      simp at hmem
  · have hresp : respond env r
        = ⟨200, jsonHeader, [failObject errorStr ("Error: " ++ e)]⟩ := by
      rw [respond, hw, finish_failWriter]
    rw [hresp]
    refine ⟨Or.inr (Or.inr ⟨?_, ?_, ⟨_, _, rfl⟩⟩), ?_⟩
    · intro hc
      simp [isBare400] at hc
    · rintro ⟨t, c, hc⟩
      simp [successObject, failObject] at hc
    · intro a d hmem
      simp only [List.mem_singleton] at hmem
      obtain ⟨ha, hd⟩ := failObject_inj _ _ _ _ hmem
      subst ha hd
      exact ⟨hlabel, e, Or.inl rfl⟩
  · have hresp : respond env r
        = ⟨200, jsonHeader, [failObject "PARSE_FAILURE" ("Error rendering: " ++ e)]⟩ := by
      rw [respond, hw, finish_failWriter]
    rw [hresp]
    refine ⟨Or.inr (Or.inr ⟨?_, ?_, ⟨_, _, rfl⟩⟩), ?_⟩
    · intro hc
      simp [isBare400] at hc
    · rintro ⟨t, c, hc⟩
      simp [successObject, failObject] at hc
    · intro a d hmem
      simp only [List.mem_singleton] at hmem
      obtain ⟨ha, hd⟩ := failObject_inj _ _ _ _ hmem
      subst ha hd
      exact ⟨Or.inr rfl, e, Or.inr rfl⟩
  · have hresp : respond env r
        = ⟨200, jsonHeader, [successObject title content]⟩ := by
      rw [respond, hw]
      simp [finish, ResponseWriter.writeHeader]
    rw [hresp]
    refine ⟨Or.inr (Or.inl ⟨?_, ⟨_, _, rfl⟩, ?_⟩), ?_⟩
    · intro hc
      simp [isBare400] at hc
    · rintro ⟨a, d, hc⟩
      simp [successObject, failObject] at hc
    · intro a d hmem
      simp only [List.mem_singleton] at hmem
      exact absurd hmem.symm (successObject_ne_failObject _ _ _ _)

/-- Witness of C8: the fail object of a request whose `url` does not parse has
the label `FETCH_FAILURE` and a detail beginning with `Error: `. -/
theorem response_shapes_witness :
    ("FETCH_FAILURE" = "FETCH_FAILURE" ∨ "FETCH_FAILURE" = "PARSE_FAILURE")
      ∧ ∃ m, "Error: missing protocol scheme" = "Error: " ++ m
          ∨ "Error: missing protocol scheme" = "Error rendering: " ++ m :=
  (response_shapes parseFailEnv badRequest).2
    "FETCH_FAILURE" "Error: missing protocol scheme"
    (by
      rw [respond, serve_parse_error parseFailEnv badRequest "missing protocol scheme"
        (by decide) rfl, finish_failWriter]
      exact List.mem_singleton.mpr rfl)

/-- Claim C9: the upstream status code is not looked at. For two runs on the same
request whose URL parses and whose transport succeeds with the same body, with
the same Extractor and Renderer, the responses are equal whatever the upstream
status codes and headers are; the body is handed to the Extractor, and the
response is not a `FETCH_FAILURE`. -/
theorem upstream_status_ignored (envA envB : Env) (r : Request) (p : URL)
    (req : ClientRequest) (respA respB : ClientResponse)
    (hurl : r.query.get "url" ≠ "")
    (hpA : envA.urlParse (r.query.get "url") = Except.ok p)
    (hpB : envB.urlParse (r.query.get "url") = Except.ok p)
    (hqA : envA.newRequest "GET" (r.query.get "url") = Except.ok req)
    (hqB : envB.newRequest "GET" (r.query.get "url") = Except.ok req)
    (hdA : envA.clientDo 30 (withUserAgent req) = Except.ok respA)
    (hdB : envB.clientDo 30 (withUserAgent req) = Except.ok respB)
    (hbody : respA.body = respB.body)
    (hext : envA.fromReader = envB.fromReader)
    (hrend : envA.renderHTML = envB.renderHTML) :
    respond envA r = respond envB r
      ∧ Event.fromReader respA.body p ∈ (serve envA r).trace
      ∧ ∀ detail, failObject "FETCH_FAILURE" detail ∉ (respond envA r).body := by
  rw [respond, respond, serve_fetched envA r p req respA hurl hpA hqA hdA,
    serve_fetched envB r p req respB hurl hpB hqB hdB]
  rcases hxA : envA.fromReader respA.body p with e | article
  · have hxB : envB.fromReader respB.body p = Except.error e := by
      rw [← hext, ← hbody, hxA]
    rw [handleResponse_extract_error envA _ p respA _ e hxA,
      handleResponse_extract_error envB _ p respB _ e hxB]
    simp [finish_failWriter, failObject]
  · have hxB : envB.fromReader respB.body p = Except.ok article := by
      rw [← hext, ← hbody, hxA]
    rcases hrA : envA.renderHTML article with ⟨buf, _ | e⟩
    · have hrB : envB.renderHTML article = (buf, none) := by
        rw [← hrend, hrA]
      rw [handleResponse_success envA _ p respA _ article buf hxA hrA,
        handleResponse_success envB _ p respB _ article buf hxB hrB]
      simp [finish, ResponseWriter.writeHeader, failObject, successObject]
    · have hrB : envB.renderHTML article = (buf, some e) := by
        rw [← hrend, hrA]
      rw [handleResponse_render_error envA _ p respA _ article buf e hxA hrA,
        handleResponse_render_error envB _ p respB _ article buf e hxB hrB]
      simp [finish_failWriter, failObject]

/-- Witness of C9: an upstream answering 200 `text/html` and one answering 404
`application/pdf` with the same body get the same response. -/
theorem upstream_status_ignored_witness :
    respond demoEnv demoRequest = respond notFoundEnv demoRequest :=
  (upstream_status_ignored demoEnv notFoundEnv demoRequest _ _ _ _
    (by decide) rfl rfl rfl rfl rfl rfl rfl rfl rfl).1

/-- Claim C10: whenever the response carries a JSON fail object, the trace has,
immediately before the events of `respondError` and after no write to the
response, a printed line whose message is the `url` value, the stage text and
the text of the underlying error (the error of the detail); and every request
with a non-empty `url` logs, right after the arrival line, the line
`<url>: Request initiated` as its first stage line. -/
theorem failure_logged_before_response (env : Env) (r : Request) :
    (∀ errorStr detail, failObject errorStr detail ∈ (respond env r).body →
        ∃ e message pre post t,
          ((detail = "Error: " ++ e ∧ message = r.query.get "url" ++ ": error detail: " ++ e)
            ∨ (detail = "Error rendering: " ++ e
                ∧ message = r.query.get "url" ++ ": render error: " ++ e))
          ∧ (serve env r).trace
              = pre ++ [Event.stdout (logLine t message)] ++ failEvents errorStr detail ++ post
          ∧ ∀ ev ∈ pre, ev.isResponseWrite = false)
      ∧ (r.query.get "url" ≠ "" →
          ∃ rest, (serve env r).trace
            = Event.stdout (logLine (env.now 0) ("Incoming request: " ++ r.urlString))
              :: Event.stdout (logLine (env.now 1) (r.query.get "url" ++ ": Request initiated"))
              :: rest) := by
  rcases serve_paths env r with ⟨hempty, h⟩ | ⟨hurl, pre, post, errorStr, e, hw, -, htr, hpre⟩
    | ⟨hurl, pre, post, e, hw, htr, hpre⟩ | ⟨hurl, title, content, rest, hw, htr⟩
  · constructor
    · intro a d hmem
      rw [respond, h] at hmem
      simp [finish, ResponseWriter.writeHeader] at hmem
    · intro hurl
      exact absurd hempty hurl
  · constructor
    · intro a d hmem
      rw [respond, hw, finish_failWriter] at hmem
      simp only [List.mem_singleton] at hmem
      obtain ⟨ha, hd⟩ := failObject_inj _ _ _ _ hmem
      subst ha hd
      refine ⟨e, _, openingTrace env r ++ pre, post, _, Or.inl ⟨rfl, rfl⟩, htr, ?_⟩
      intro ev hev
      rcases List.mem_append.mp hev with h1 | h1
      · simp [openingTrace] at h1
        rcases h1 with rfl | rfl | rfl <;> rfl
      · exact hpre ev h1
    · intro _
      exact ⟨_, by rw [htr]; simp [openingTrace]; rfl⟩
  · constructor
    · intro a d hmem
      rw [respond, hw, finish_failWriter] at hmem
      simp only [List.mem_singleton] at hmem
      obtain ⟨ha, hd⟩ := failObject_inj _ _ _ _ hmem
      subst ha hd
      refine ⟨e, _, openingTrace env r ++ pre, post, _, Or.inr ⟨rfl, rfl⟩, htr, ?_⟩
      intro ev hev
      rcases List.mem_append.mp hev with h1 | h1
      · simp [openingTrace] at h1
        rcases h1 with rfl | rfl | rfl <;> rfl
      · exact hpre ev h1
    · intro _
      exact ⟨_, by rw [htr]; simp [openingTrace]; rfl⟩
  · constructor
    · intro a d hmem
      rw [respond, hw] at hmem
      simp [finish, ResponseWriter.writeHeader] at hmem
      exact absurd hmem.symm (successObject_ne_failObject _ _ _ _)
    · intro _
      exact ⟨_, by rw [htr]; simp [openingTrace]; rfl⟩

/-- Witness of C10: a transport timeout is logged with the URL and the error
text before the fail object is written, and the first stage line is
`Request initiated`. -/
theorem failure_logged_before_response_witness :
    (∃ e message pre post t,
        (("Error: context deadline exceeded" = "Error: " ++ e
            ∧ message = demoRequest.query.get "url" ++ ": error detail: " ++ e)
          ∨ ("Error: context deadline exceeded" = "Error rendering: " ++ e
            ∧ message = demoRequest.query.get "url" ++ ": render error: " ++ e))
        ∧ (serve transportFailEnv demoRequest).trace
            = pre ++ [Event.stdout (logLine t message)]
              ++ failEvents "FETCH_FAILURE" "Error: context deadline exceeded" ++ post
        ∧ ∀ ev ∈ pre, ev.isResponseWrite = false)
      ∧ ∃ rest, (serve transportFailEnv demoRequest).trace
          = Event.stdout (logLine (transportFailEnv.now 0)
              ("Incoming request: " ++ demoRequest.urlString))
            :: Event.stdout (logLine (transportFailEnv.now 1)
              (demoRequest.query.get "url" ++ ": Request initiated"))
            :: rest :=
  ⟨(failure_logged_before_response transportFailEnv demoRequest).1
      "FETCH_FAILURE" "Error: context deadline exceeded"
      (by
        rw [respond, serve_transport_error transportFailEnv demoRequest _ _
          "context deadline exceeded" (by decide) rfl rfl rfl, finish_failWriter]
        exact List.mem_singleton.mpr rfl),
   (failure_logged_before_response transportFailEnv demoRequest).2 (by decide)⟩

/-- Claim C2, evaluated on the code: the upstream declares
`Content-Type: application/pdf`, and the handler still hands the body to the
Extractor; the response carries the Extractor's error under `PARSE_FAILURE`,
not `FETCH_FAILURE`. -/
theorem pdf_response_reaches_extractor :
    pdfEnv.clientDo 30
        (withUserAgent { method := "GET", url := "https://example.com/paper.pdf", header := [] })
        = Except.ok
            { statusCode := 200, header := [("Content-Type", ["application/pdf"])],
              body := "%PDF-1.7" }
      ∧ respond pdfEnv pdfRequest
        = { status := 200, header := jsonHeader,
            body := [failObject "PARSE_FAILURE" "Error: no content found"] }
      ∧ Event.fromReader "%PDF-1.7" { text := "https://example.com/paper.pdf" }
          ∈ (serve pdfEnv pdfRequest).trace := by
  refine ⟨rfl, ?_, ?_⟩
  · rw [respond, serve_fetched pdfEnv pdfRequest _ _ _ (by decide) rfl rfl rfl,
      handleResponse_extract_error pdfEnv _ _ _ _ "no content found" rfl, finish_failWriter]
    rfl
  · rw [serve_fetched pdfEnv pdfRequest _ _ _ (by decide) rfl rfl rfl,
      handleResponse_extract_error pdfEnv _ _ _ _ "no content found" rfl]
    have hmem : Event.fromReader "%PDF-1.7" { text := "https://example.com/paper.pdf" }
        ∈ [Event.fromReader "%PDF-1.7" { text := "https://example.com/paper.pdf" },
           Event.stdout (logLine demoTime
             ("https://example.com/paper.pdf" ++ ": error detail: " ++ "no content found"))] :=
      List.mem_cons_self _ _
    exact List.mem_append_left _ (List.mem_append_left _ (List.mem_append_right _ hmem))

end Readable
